import Mathlib

/-
Verification development for the go-leadsdb client library.

The definitions below are a shallow embedding of the Go source:
durations are modelled as integer nanosecond counts, HTTP status codes as
integers, and the network is an oracle mapping each attempt index (or each
page cursor, or each submitted batch) to the outcome the environment
produced for it.  Opaque Go error values are modelled as strings.
-/

namespace LeadsDB

/-- One time-unit second in nanoseconds, mirroring time.Second. -/
def second : Int := 1000000000

/-- Mirrors DefaultBaseDelay = 1 * time.Second. -/
def defaultBaseDelay : Int := second

/-- Mirrors maxJitter = 500 * time.Millisecond. -/
def maxJitter : Int := 500000000

/-- Mirrors maxBatchSize = 100. -/
def maxBatchSize : Nat := 100

/-- Mirrors Client.shouldRetry: a non-nil transport error is always
retriable; otherwise exactly the status codes 429, 500, 502, 503, 504
are retriable.  errPresent models err != nil. -/
def shouldRetry (statusCode : Int) (errPresent : Bool) : Bool :=
  if errPresent then true
  else if statusCode = 429 ∨ statusCode = 500 ∨ statusCode = 502 ∨
      statusCode = 503 ∨ statusCode = 504 then true
  else false

/-- Restriction of net/http StatusText to the codes this development
evaluates; unknown codes map to the empty string exactly as in Go. -/
def statusText (code : Int) : String :=
  if code = 200 then "OK"
  else if code = 400 then "Bad Request"
  else if code = 401 then "Unauthorized"
  else if code = 403 then "Forbidden"
  else if code = 404 then "Not Found"
  else if code = 418 then "I am a teapot"
  else if code = 429 then "Too Many Requests"
  else if code = 500 then "Internal Server Error"
  else if code = 502 then "Bad Gateway"
  else if code = 503 then "Service Unavailable"
  else if code = 504 then "Gateway Timeout"
  else ""

/-- Reduction of an unbounded integer to the int64 value Go computes:
the low 64 bits read as a signed two's complement number. -/
def wrap64 (x : Int) : Int := (x + 2 ^ 63) % 2 ^ 64 - 2 ^ 63

/-- wrap64 is the identity exactly on the int64 range. -/
theorem wrap64_eq_self (x : Int) (h1 : -(2 ^ 63) ≤ x) (h2 : x < 2 ^ 63) :
    wrap64 x = x := by
  have e63 : (2 : Int) ^ 63 = 9223372036854775808 := by norm_num
  have e64 : (2 : Int) ^ 64 = 18446744073709551616 := by norm_num
  unfold wrap64
  rw [e63] at h1 h2
  rw [e63, e64]
  omega

/-- Mirrors the delay computation of Client.backoff in the int64
arithmetic of time.Duration: a positive Retry-After hint (in seconds)
overrides the exponential base delay DefaultBaseDelay shifted left by
the attempt index, and the random jitter drawn from the half-open
interval from 0 to maxJitter is added unconditionally.  Every product,
shift and sum wraps as Go int64 does; the jitter draw is passed in as
an argument and retryAfter is the already-in-range parsed header int. -/
def backoffDelay (attempt : Nat) (retryAfter : Int) (jitter : Int) : Int :=
  wrap64 ((if 0 < retryAfter then wrap64 (retryAfter * second)
           else wrap64 (defaultBaseDelay * 2 ^ attempt)) + jitter)

/-- Claim C3: shouldRetry returns true for every non-nil transport error
regardless of status code, returns true for exactly 429, 500, 502, 503
and 504 when there is no transport error, and false for every other
status code. -/
theorem shouldRetry_classification (s : Int) :
    shouldRetry s true = true ∧
    (shouldRetry s false = true ↔
      (s = 429 ∨ s = 500 ∨ s = 502 ∨ s = 503 ∨ s = 504)) := by
  constructor
  · rfl
  · unfold shouldRetry
    split
    · simp_all
    · split <;> simp_all

/-- Claim C4 (amended): for every attempt index up to 33, the largest
index at which the shifted base delay still fits in int64, and every
jitter draw in the half-open jitter interval, the delay without a
positive hint equals the exponential base delay plus the jitter and so
lies in the half-open interval of width maxJitter starting at the base
delay; with a positive hint of h seconds whose duration plus maxJitter
fits in int64, the delay equals h seconds plus the jitter and lies in
the half-open interval of width maxJitter starting at h seconds; the
jitter is added unconditionally in both cases.  Beyond those bounds
the int64 computation wraps and the delay can be negative. -/
theorem backoff_delay_range (a : Nat) (ra j : Int)
    (hj0 : 0 ≤ j) (hj1 : j < maxJitter) (ha : a ≤ 33) :
    (ra ≤ 0 →
      backoffDelay a ra j = defaultBaseDelay * 2 ^ a + j ∧
      defaultBaseDelay * 2 ^ a ≤ backoffDelay a ra j ∧
      backoffDelay a ra j < defaultBaseDelay * 2 ^ a + maxJitter) ∧
    (0 < ra → ra * second + maxJitter ≤ 2 ^ 63 →
      backoffDelay a ra j = ra * second + j ∧
      ra * second ≤ backoffDelay a ra j ∧
      backoffDelay a ra j < ra * second + maxJitter) := by
  have he63 : (2 : Int) ^ 63 = 9223372036854775808 := by norm_num
  have hmj : maxJitter = 500000000 := rfl
  have hsec : second = 1000000000 := rfl
  constructor
  · intro h
    have hb : (0 : Int) ≤ defaultBaseDelay := by norm_num [defaultBaseDelay, second]
    have hposb : (0 : Int) ≤ defaultBaseDelay * 2 ^ a :=
      mul_nonneg hb (pow_nonneg (by norm_num) a)
    have h2a : (2 : Int) ^ a ≤ 2 ^ 33 := pow_le_pow_right₀ (by norm_num) ha
    have hub : defaultBaseDelay * 2 ^ a ≤ 8589934592000000000 := by
      have h33 : defaultBaseDelay * 2 ^ 33 = 8589934592000000000 := by
        norm_num [defaultBaseDelay, second]
      have hmono : defaultBaseDelay * 2 ^ a ≤ defaultBaseDelay * 2 ^ 33 :=
        mul_le_mul_of_nonneg_left h2a hb
      linarith
    unfold backoffDelay
    rw [if_neg (by omega)]
    rw [wrap64_eq_self (defaultBaseDelay * 2 ^ a) (by linarith) (by linarith)]
    rw [wrap64_eq_self (defaultBaseDelay * 2 ^ a + j) (by linarith) (by linarith)]
    exact ⟨rfl, by linarith, by linarith⟩
  · intro h hbound
    have hras : 0 < ra * second := by
      have hs : (0 : Int) < second := by rw [hsec]; norm_num
      exact mul_pos h hs
    have hlt : ra * second < 2 ^ 63 := by linarith
    unfold backoffDelay
    rw [if_pos h]
    rw [wrap64_eq_self (ra * second) (by linarith) hlt]
    rw [wrap64_eq_self (ra * second + j) (by linarith) (by linarith)]
    exact ⟨rfl, by linarith, by linarith⟩

/-- Counterexample to claim C4 as stated: the Go source computes the
delay in wrapping int64 arithmetic, so at attempt index 34 the shifted
base delay overflows and the computed delay is negative, not at least
baseDelay times 2 to the 34; likewise a parseable Retry-After hint of
10 billion seconds wraps to a negative delay below the hinted
duration. -/
theorem backoff_overflow_cex :
    backoffDelay 34 0 0 < 0 ∧
    ¬(defaultBaseDelay * 2 ^ 34 ≤ backoffDelay 34 0 0) ∧
    backoffDelay 0 10000000000 0 < 0 ∧
    ¬((10000000000 : Int) * second ≤ backoffDelay 0 10000000000 0) := by
  refine ⟨?_, ?_, ?_, ?_⟩ <;>
    norm_num [backoffDelay, wrap64, defaultBaseDelay, second]

/-- Witness for C4 at attempt 2, no hint, jitter 7. -/
theorem backoff_delay_range_witness :
    ((0 : Int) ≤ 7 ∧ (7 : Int) < maxJitter ∧ (2 : Nat) ≤ 33) ∧
    (((0 : Int) ≤ 0 →
      backoffDelay 2 0 7 = defaultBaseDelay * 2 ^ 2 + 7 ∧
      defaultBaseDelay * 2 ^ 2 ≤ backoffDelay 2 0 7 ∧
      backoffDelay 2 0 7 < defaultBaseDelay * 2 ^ 2 + maxJitter) ∧
    ((0 : Int) < 0 → (0 : Int) * second + maxJitter ≤ 2 ^ 63 →
      backoffDelay 2 0 7 = 0 * second + 7 ∧
      (0 : Int) * second ≤ backoffDelay 2 0 7 ∧
      backoffDelay 2 0 7 < 0 * second + maxJitter)) :=
  ⟨⟨by decide, by decide, by decide⟩,
    backoff_delay_range 2 0 7 (by decide) (by decide) (by decide)⟩

/-- Mirrors APIError: the structured error built from a non-2xx response.
StatusCode and RetryAfter are Go ints, Code and Message strings. -/
structure APIError where
  statusCode : Int
  code : String
  message : String
  retryAfter : Int
deriving DecidableEq

/-- One HTTP response as the environment produced it, after the byte-level
steps the embedding abstracts: bodyCode and bodyMessage are the Code and
Message fields of an APIError after the optional JSON unmarshal of the
body (empty when the body was empty or the field absent),
retryAfterHeader is the numeric value of the Retry-After header when
present and parseable, bodyNonEmpty says whether the response body had
any bytes, and decodeErr is the error of unmarshalling a 2xx body into
the requested result shape, when that unmarshal fails. -/
structure HttpResponse where
  statusCode : Int
  bodyCode : String
  bodyMessage : String
  retryAfterHeader : Option Int
  bodyNonEmpty : Bool
  decodeErr : Option String
deriving DecidableEq

/-- Mirrors the APIError construction in Client.do: status code carried
over, message falling back to the generic status text when the body
supplied none, and the Retry-After hint recorded only for status 429. -/
def mkAPIError (r : HttpResponse) : APIError :=
  { statusCode := r.statusCode
    code := r.bodyCode
    message := if r.bodyMessage = "" then statusText r.statusCode else r.bodyMessage
    retryAfter := if r.statusCode = 429 then r.retryAfterHeader.getD 0 else 0 }

/-- Outcome of one network attempt: the round trip failed with a
transport error, the round trip succeeded but reading the body failed,
or a response was fully read. -/
inductive AttemptOutcome where
  | transportErr (e : String)
  | bodyReadErr (e : String)
  | response (r : HttpResponse)
deriving DecidableEq

/-- The error value Client.do returns, tagged by its origin. -/
inductive DoError where
  | ctxCancelled
  | transport (e : String)
  | bodyRead (e : String)
  | decode (e : String)
  | api (e : APIError)
deriving DecidableEq

/-- Observable trace of one Client.do call: the returned error (none
models a nil error), the number of network attempts made, the backoff
waits performed (attempt index and the Retry-After hint passed), and
whether a 2xx body was decoded into the requested result. -/
structure DoTrace where
  result : Option DoError
  attempts : Nat
  waits : List (Nat × Int)
  decodedBody : Bool
deriving DecidableEq

/-- The retry loop of Client.do.  wantResult models result != nil,
outcome maps each attempt index to what the network did on that
attempt, cancelled models ctx.Err() != nil observed at the top of the
iteration, rem is the number of loop iterations remaining, and lastErr
the accumulator returned when all attempts are exhausted. -/
def doLoop (wantResult : Bool) (outcome : Nat → AttemptOutcome)
    (cancelled : Nat → Bool) :
    Nat → Nat → Option DoError → DoTrace
  | _, 0, lastErr => { result := lastErr, attempts := 0, waits := [], decodedBody := false }
  | attempt, rem + 1, _ =>
    if cancelled attempt then
      { result := some DoError.ctxCancelled, attempts := 0, waits := [], decodedBody := false }
    else
      match outcome attempt with
      | .transportErr e =>
        if shouldRetry 0 true then
          -- retriable: back off (hint 0) and continue with the next attempt
          have rest := doLoop wantResult outcome cancelled (attempt + 1) rem
            (some (DoError.transport e))
          { rest with attempts := rest.attempts + 1, waits := (attempt, 0) :: rest.waits }
        else
          { result := some (DoError.transport e), attempts := 1, waits := [], decodedBody := false }
      | .bodyReadErr e =>
        { result := some (DoError.bodyRead e), attempts := 1, waits := [], decodedBody := false }
      | .response r =>
        if 200 ≤ r.statusCode ∧ r.statusCode < 300 then
          if wantResult && r.bodyNonEmpty then
            match r.decodeErr with
            | some e => { result := some (DoError.decode e), attempts := 1, waits := [], decodedBody := false }
            | none => { result := none, attempts := 1, waits := [], decodedBody := true }
          else
            { result := none, attempts := 1, waits := [], decodedBody := false }
        else
          if shouldRetry r.statusCode false then
            -- retriable status: back off using the parsed hint, then continue
            have rest := doLoop wantResult outcome cancelled (attempt + 1) rem
              (some (DoError.api (mkAPIError r)))
            { rest with
              attempts := rest.attempts + 1
              waits := (attempt, (mkAPIError r).retryAfter) :: rest.waits }
          else
            { result := some (DoError.api (mkAPIError r)), attempts := 1, waits := [], decodedBody := false }

/-- One-step unfolding of the retry loop, for rewriting a single
iteration without unfolding the recursive call. -/
theorem doLoop_succ (wantResult : Bool) (outcome : Nat → AttemptOutcome)
    (cancelled : Nat → Bool) (attempt rem : Nat) (lastErr : Option DoError) :
    doLoop wantResult outcome cancelled attempt (rem + 1) lastErr =
      if cancelled attempt then
        { result := some DoError.ctxCancelled, attempts := 0, waits := [], decodedBody := false }
      else
        match outcome attempt with
        | .transportErr e =>
          if shouldRetry 0 true then
            have rest := doLoop wantResult outcome cancelled (attempt + 1) rem
              (some (DoError.transport e))
            { rest with attempts := rest.attempts + 1, waits := (attempt, 0) :: rest.waits }
          else
            { result := some (DoError.transport e), attempts := 1, waits := [], decodedBody := false }
        | .bodyReadErr e =>
          { result := some (DoError.bodyRead e), attempts := 1, waits := [], decodedBody := false }
        | .response r =>
          if 200 ≤ r.statusCode ∧ r.statusCode < 300 then
            if wantResult && r.bodyNonEmpty then
              match r.decodeErr with
              | some e => { result := some (DoError.decode e), attempts := 1, waits := [], decodedBody := false }
              | none => { result := none, attempts := 1, waits := [], decodedBody := true }
            else
              { result := none, attempts := 1, waits := [], decodedBody := false }
          else
            if shouldRetry r.statusCode false then
              have rest := doLoop wantResult outcome cancelled (attempt + 1) rem
                (some (DoError.api (mkAPIError r)))
              { rest with
                attempts := rest.attempts + 1
                waits := (attempt, (mkAPIError r).retryAfter) :: rest.waits }
            else
              { result := some (DoError.api (mkAPIError r)), attempts := 1, waits := [], decodedBody := false } := rfl

/-- Client.do: the loop `for attempt := range c.maxRetries` runs
maxRetries.toNat iterations (zero when maxRetries is not positive),
starting with a nil lastErr. -/
def doRun (wantResult : Bool) (outcome : Nat → AttemptOutcome)
    (cancelled : Nat → Bool) (maxRetries : Int) : DoTrace :=
  doLoop wantResult outcome cancelled 0 maxRetries.toNat none

/-- The error a retriable attempt outcome contributes as lastErr, when
the outcome is a retriable failure: every transport error is retriable,
and a response outside 2xx whose status the classifier accepts. -/
def retriableFailure : AttemptOutcome → Option DoError
  | .transportErr e => some (DoError.transport e)
  | .bodyReadErr _ => none
  | .response r =>
    if 200 ≤ r.statusCode ∧ r.statusCode < 300 then none
    else if shouldRetry r.statusCode false then some (DoError.api (mkAPIError r))
    else none

/-- The Lead record, keeping the fields the modelled control flow
inspects (Name and Source are validated client-side) plus ID to
distinguish records; the many remaining Go fields are passive payload
never read by the retry, pagination or batching logic. -/
structure Lead where
  id : String
  name : String
  source : String
deriving DecidableEq

/-- The zero value of the Lead struct. -/
def zeroLead : Lead := { id := "", name := "", source := "" }

/-- The error of Client.Get: a client-side validation error produced
before any network call, or the error Client.do returned. -/
inductive GetErr where
  | validation (msg : String)
  | fromDo (e : DoError)
deriving DecidableEq

/-- Mirrors Client.Get: reject an empty id before any network call,
then run do with a requested result shape into a zero-valued Lead;
decodedVal is the value a decoded 2xx body would leave in it. -/
def getModel (outcome : Nat → AttemptOutcome) (cancelled : Nat → Bool)
    (maxRetries : Int) (id : String) (decodedVal : Lead) : Except GetErr Lead :=
  if id = "" then .error (.validation "leadsdb: id is required")
  else
    let tr := doRun true outcome cancelled maxRetries
    match tr.result with
    | some e => .error (.fromDo e)
    | none => .ok (if tr.decodedBody then decodedVal else zeroLead)

/-- When every attempt from a on, for k+1 attempts, is uncancelled and
fails retriably, the loop returns the error of the last attempt, makes
k+1 attempts and performs k+1 backoff waits (one after every failure,
the final one included). -/
theorem doLoop_all_retriable (wantResult : Bool) (outcome : Nat → AttemptOutcome)
    (cancelled : Nat → Bool) :
    ∀ (k a : Nat) (lastErr : Option DoError),
    (∀ i, i ≤ k → cancelled (a + i) = false ∧ (retriableFailure (outcome (a + i))).isSome) →
    (doLoop wantResult outcome cancelled a (k + 1) lastErr).result
        = retriableFailure (outcome (a + k)) ∧
    (doLoop wantResult outcome cancelled a (k + 1) lastErr).attempts = k + 1 ∧
    (doLoop wantResult outcome cancelled a (k + 1) lastErr).waits.length = k + 1 := by
  intro k
  induction k with
  | zero =>
    intro a lastErr hall
    have hc : cancelled a = false := (hall 0 (Nat.le_refl 0)).1
    have hr : (retriableFailure (outcome a)).isSome := (hall 0 (Nat.le_refl 0)).2
    show (doLoop wantResult outcome cancelled a (0 + 1) lastErr).result
        = retriableFailure (outcome a) ∧
      (doLoop wantResult outcome cancelled a (0 + 1) lastErr).attempts = 0 + 1 ∧
      (doLoop wantResult outcome cancelled a (0 + 1) lastErr).waits.length = 0 + 1
    rw [doLoop_succ]
    cases ho : outcome a with
    | transportErr e =>
      simp [hc, retriableFailure, doLoop, shouldRetry]
    | bodyReadErr e =>
      rw [ho] at hr
      simp [retriableFailure] at hr
    | response r =>
      rw [ho] at hr
      by_cases h2 : 200 ≤ r.statusCode ∧ r.statusCode < 300
      · simp [retriableFailure, h2] at hr
      · by_cases hs : shouldRetry r.statusCode false = true
        · simp [hc, retriableFailure, h2, hs, doLoop]
        · simp [retriableFailure, h2, hs] at hr
  | succ k ih =>
    intro a lastErr hall
    have hc : cancelled a = false := (hall 0 (Nat.zero_le _)).1
    have hr : (retriableFailure (outcome a)).isSome := (hall 0 (Nat.zero_le _)).2
    have hall' : ∀ i, i ≤ k →
        cancelled (a + 1 + i) = false ∧ (retriableFailure (outcome (a + 1 + i))).isSome := by
      intro i hi
      have h := hall (i + 1) (by omega)
      rwa [show a + (i + 1) = a + 1 + i by omega] at h
    rw [doLoop_succ]
    cases ho : outcome a with
    | transportErr e =>
      have hrec := ih (a + 1) (some (DoError.transport e)) hall'
      rw [show a + 1 + k = a + (k + 1) by omega] at hrec
      simp only [hc, Bool.false_eq_true, if_false, shouldRetry, if_true]
      exact ⟨hrec.1, by simp [hrec.2.1], by simp [hrec.2.2]⟩
    | bodyReadErr e =>
      rw [ho] at hr
      simp [retriableFailure] at hr
    | response r =>
      rw [ho] at hr
      by_cases h2 : 200 ≤ r.statusCode ∧ r.statusCode < 300
      · simp [retriableFailure, h2] at hr
      · by_cases hs : shouldRetry r.statusCode false = true
        · have hrec := ih (a + 1) (some (DoError.api (mkAPIError r))) hall'
          rw [show a + 1 + k = a + (k + 1) by omega] at hrec
          simp only [hc, Bool.false_eq_true, if_false]
          rw [if_neg h2, if_pos hs]
          exact ⟨hrec.1, by simp [hrec.2.1], by simp [hrec.2.2]⟩
        · simp [retriableFailure, h2, hs] at hr

/-- Claim C1 (amended): when every attempt of a logical request fails
with a failure the classifier deems retriable and cancellation never
fires, do returns the last observed error, the transport error or
structured APIError of the final attempt, never a generic retries
exhausted error; however the executor performs one backoff wait after
every retriable failure, the one on the final attempt included, so the
number of waits equals the number of attempts. -/
theorem do_exhausted_returns_last_error (wantResult : Bool)
    (outcome : Nat → AttemptOutcome) (cancelled : Nat → Bool) (maxRetries : Int)
    (hpos : 0 < maxRetries)
    (hall : ∀ i, i < maxRetries.toNat →
      cancelled i = false ∧ (retriableFailure (outcome i)).isSome) :
    (doRun wantResult outcome cancelled maxRetries).result
        = retriableFailure (outcome (maxRetries.toNat - 1)) ∧
    (doRun wantResult outcome cancelled maxRetries).attempts = maxRetries.toNat ∧
    (doRun wantResult outcome cancelled maxRetries).waits.length = maxRetries.toNat := by
  obtain ⟨k, hk⟩ : ∃ k, maxRetries.toNat = k + 1 := ⟨maxRetries.toNat - 1, by omega⟩
  have h := doLoop_all_retriable wantResult outcome cancelled k 0 none
    (by intro i hi; simpa using hall i (by omega))
  unfold doRun
  rw [hk]
  simpa [hk] using h

/-- A 500 response with an empty body, as the environment returns it on
every attempt. -/
def respError500 : HttpResponse :=
  { statusCode := 500, bodyCode := "", bodyMessage := "", retryAfterHeader := none
    bodyNonEmpty := false, decodeErr := none }

/-- Environment in which every attempt gets the 500 response. -/
def outcomeAll500 : Nat → AttemptOutcome := fun _ => .response respError500

/-- Environment in which cancellation never fires. -/
def neverCancelled : Nat → Bool := fun _ => false

/-- Counterexample to claim C1 as stated: with one configured attempt
and a retriable 500 failure on that final attempt, do does return that
error as the terminal result, but it still performs a backoff wait
(attempt index 0, hint 0) before returning, contradicting that no
further backoff wait is performed when no attempts remain. -/
theorem do_final_attempt_backoff_cex :
    (doRun false outcomeAll500 neverCancelled 1).result
        = some (DoError.api (mkAPIError respError500)) ∧
    (doRun false outcomeAll500 neverCancelled 1).waits = [(0, 0)] := by
  decide

/-- Witness for C1 with two attempts, both failing with the 500. -/
theorem do_exhausted_returns_last_error_witness :
    (doRun false outcomeAll500 neverCancelled 2).result
        = retriableFailure (outcomeAll500 ((2 : Int).toNat - 1)) ∧
    (doRun false outcomeAll500 neverCancelled 2).attempts = (2 : Int).toNat ∧
    (doRun false outcomeAll500 neverCancelled 2).waits.length = (2 : Int).toNat :=
  do_exhausted_returns_last_error false outcomeAll500 neverCancelled 2 (by decide)
    (fun _ _ => ⟨rfl, rfl⟩)

/-- Claim C8: a response whose status is outside 2xx and outside the
transient set 429, 500, 502, 503, 504 makes do return after exactly one
network attempt, with no backoff wait, carrying the structured APIError
built from that response. -/
theorem do_non_transient_one_attempt (wantResult : Bool)
    (outcome : Nat → AttemptOutcome) (cancelled : Nat → Bool) (maxRetries : Int)
    (r : HttpResponse)
    (hpos : 0 < maxRetries) (hc : cancelled 0 = false)
    (ho : outcome 0 = .response r)
    (hrange : r.statusCode < 200 ∨ 300 ≤ r.statusCode)
    (ht : ¬(r.statusCode = 429 ∨ r.statusCode = 500 ∨ r.statusCode = 502 ∨
        r.statusCode = 503 ∨ r.statusCode = 504)) :
    doRun wantResult outcome cancelled maxRetries =
      { result := some (DoError.api (mkAPIError r)), attempts := 1
        waits := [], decodedBody := false } := by
  obtain ⟨k, hk⟩ : ∃ k, maxRetries.toNat = k + 1 := ⟨maxRetries.toNat - 1, by omega⟩
  have h2 : ¬(200 ≤ r.statusCode ∧ r.statusCode < 300) := by omega
  have hs : shouldRetry r.statusCode false = false := by
    simp [shouldRetry, ht]
  unfold doRun
  rw [hk, doLoop_succ]
  simp only [hc, Bool.false_eq_true, if_false, ho]
  rw [if_neg h2, if_neg (by simp [hs])]

/-- A 404 response carrying a machine code and message. -/
def respNotFound : HttpResponse :=
  { statusCode := 404, bodyCode := "not_found", bodyMessage := "lead not found"
    retryAfterHeader := none, bodyNonEmpty := true, decodeErr := none }

/-- Environment in which the first attempt gets the 404 response. -/
def outcomeNotFound : Nat → AttemptOutcome := fun _ => .response respNotFound

/-- Witness for C8 at a 404 response with three configured attempts. -/
theorem do_non_transient_one_attempt_witness :
    doRun true outcomeNotFound neverCancelled 3 =
      { result := some (DoError.api (mkAPIError respNotFound)), attempts := 1
        waits := [], decodedBody := false } :=
  do_non_transient_one_attempt true outcomeNotFound neverCancelled 3 respNotFound
    (by decide) rfl rfl (by decide) (by decide)

/-- Claim C10: configured with a maximum retry count of zero or less,
do performs no network attempt, no backoff wait, and returns a nil
error, so an operation such as Get reports success with the zero-value
result without contacting the server. -/
theorem do_nonpositive_retries_no_attempt (wantResult : Bool)
    (outcome : Nat → AttemptOutcome) (cancelled : Nat → Bool) (maxRetries : Int)
    (id : String) (dv : Lead)
    (hneg : maxRetries ≤ 0) (hid : id ≠ "") :
    doRun wantResult outcome cancelled maxRetries =
      { result := none, attempts := 0, waits := [], decodedBody := false } ∧
    getModel outcome cancelled maxRetries id dv = .ok zeroLead := by
  have h0 : maxRetries.toNat = 0 := by omega
  constructor
  · unfold doRun
    rw [h0]
    rfl
  · unfold getModel
    rw [if_neg hid]
    simp [doRun, h0, doLoop]

/-- Witness for C10 with zero retries and a valid id. -/
theorem do_nonpositive_retries_no_attempt_witness :
    doRun true outcomeAll500 neverCancelled 0 =
      { result := none, attempts := 0, waits := [], decodedBody := false } ∧
    getModel outcomeAll500 neverCancelled 0 "abc" zeroLead = .ok zeroLead :=
  do_nonpositive_retries_no_attempt true outcomeAll500 neverCancelled 0 "abc" zeroLead
    (by decide) (by decide)

/-- One page as Client.List returns it: the records of the page, the
has_more flag and the next cursor. -/
structure ListPage where
  leads : List Lead
  hasMore : Bool
  nextCursor : String
deriving DecidableEq

/-- One produced item of the paged fetcher: a record, or the error that
terminates the sequence. -/
inductive IterItem where
  | lead (l : Lead)
  | fail (e : String)
deriving DecidableEq

/-- Mirrors Client.iterate.  list maps the cursor sent with a page
request (the empty string models the first request, which carries no
cursor option) to the page the server returned or the error Client.List
surfaced.  fuel bounds the number of page requests so the unbounded Go
loop is a total function; every theorem supplies enough fuel for the
pages it traverses.  Returns the produced sequence and the number of
page requests issued. -/
def iterate (list : String → Except String ListPage) :
    Nat → String → List IterItem × Nat
  | 0, _ => ([], 0)
  | fuel + 1, cursor =>
    match list cursor with
    | .error e => ([IterItem.fail e], 1)
    | .ok page =>
      if page.hasMore then
        (page.leads.map IterItem.lead ++ (iterate list fuel page.nextCursor).1,
         (iterate list fuel page.nextCursor).2 + 1)
      else
        (page.leads.map IterItem.lead, 1)

/-- Claim C5: with a first page of records A, B carrying has_more and
cursor X, and a second page of record C with has_more false, the
fetcher produces exactly A, B, C in order using exactly two page
requests; in general every record of a fetched page is emitted, in
server order, before the remainder that the next request produces, and
a page-fetch error terminates the sequence with that error as the one
final item, leaving records of earlier pages already emitted in place. -/
theorem iterate_pages_spec (A B C : Lead) (X : String) (fuel : Nat)
    (list : String → Except String ListPage)
    (h1 : list "" = .ok { leads := [A, B], hasMore := true, nextCursor := X })
    (h2 : list X = .ok { leads := [C], hasMore := false, nextCursor := "" }) :
    iterate list (fuel + 2) ""
        = ([IterItem.lead A, IterItem.lead B, IterItem.lead C], 2) ∧
    (∀ (lst : String → Except String ListPage) (f : Nat) (cur e : String),
      lst cur = .error e → iterate lst (f + 1) cur = ([IterItem.fail e], 1)) ∧
    (∀ (lst : String → Except String ListPage) (f : Nat) (cur : String) (page : ListPage),
      lst cur = .ok page → page.hasMore = true →
      iterate lst (f + 1) cur
        = (page.leads.map IterItem.lead ++ (iterate lst f page.nextCursor).1,
           (iterate lst f page.nextCursor).2 + 1)) := by
  refine ⟨?_, ?_, ?_⟩
  · show iterate list (fuel + 1 + 1) "" = _
    rw [iterate, h1]
    simp only [List.map]
    rw [iterate, h2]
    simp
  · intro lst f cur e h
    rw [iterate, h]
  · intro lst f cur page h hm
    rw [iterate, h]
    simp [hm]

/-- Three concrete records for the C5 witness. -/
def leadA : Lead := { id := "a", name := "Alpha", source := "seed" }

/-- Second concrete record. -/
def leadB : Lead := { id := "b", name := "Beta", source := "seed" }

/-- Third concrete record. -/
def leadC : Lead := { id := "c", name := "Gamma", source := "seed" }

/-- A server with two pages: the first carries leadA and leadB with
cursor X, the second carries leadC and ends the listing. -/
def twoPageServer : String → Except String ListPage := fun cur =>
  if cur = "" then .ok { leads := [leadA, leadB], hasMore := true, nextCursor := "X" }
  else if cur = "X" then .ok { leads := [leadC], hasMore := false, nextCursor := "" }
  else .error "unknown cursor"

/-- Witness for C5 on the two-page server. -/
theorem iterate_pages_spec_witness :
    iterate twoPageServer 2 ""
        = ([IterItem.lead leadA, IterItem.lead leadB, IterItem.lead leadC], 2) :=
  (iterate_pages_spec leadA leadB leadC "X" 0 twoPageServer rfl rfl).1

/-- Mirrors BulkLeadResult: one successfully created record (the
CreatedAt timestamp is passive payload and omitted). -/
structure BulkLeadResult where
  index : Int
  id : String
deriving DecidableEq

/-- Mirrors BulkLeadError: one per-record failure. -/
structure BulkLeadError where
  index : Int
  message : String
deriving DecidableEq

/-- Mirrors BulkCreateResult: aggregate counts plus per-record created
entries and per-record errors. -/
structure BulkCreateResult where
  total : Int
  success : Int
  failed : Int
  created : List BulkLeadResult
  errors : List BulkLeadError
deriving DecidableEq

/-- One item on the errors outlet of BulkCreateFromChan: a whole-batch
submission failure forwarded as-is, or one per-record failure composed
from its index and message. -/
inductive BatchErr where
  | submit (e : String)
  | perRecord (index : Int) (message : String)
deriving DecidableEq

/-- One event the batcher goroutine reacts to: a record received from
the input channel, the inactivity timer firing, or the input channel
closing.  Cancellation only stops the loop and is not modelled; the
timer arming discipline is real-time behaviour outside the embedding,
so timerFire may occur at any point of an event sequence. -/
inductive BatchEvent where
  | recv (l : Lead)
  | timerFire
  | closeInput
deriving DecidableEq

/-- State of the BulkCreateFromChan goroutine: the pending batch, the
batches handed to BulkCreate in order, everything emitted on the
results outlet, everything emitted on the errors outlet, and whether
the loop has returned. -/
structure BatcherState where
  batch : List Lead
  submitted : List (List Lead)
  results : List BulkLeadResult
  errs : List BatchErr
  closed : Bool
deriving DecidableEq

/-- Mirrors the flush closure of BulkCreateFromChan: an empty batch is
a no-op; otherwise the batch goes to BulkCreate (modelled by the call
oracle); a whole-call error is forwarded once to the errors outlet and
the batch cleared; on success every created entry goes to the results
outlet, every per-record error is composed onto the errors outlet, and
the batch is cleared. -/
def flush (call : List Lead → Except String BulkCreateResult)
    (s : BatcherState) : BatcherState :=
  if s.batch.length = 0 then s
  else
    match call s.batch with
    | .error e =>
      { s with
        batch := []
        submitted := s.submitted ++ [s.batch]
        errs := s.errs ++ [BatchErr.submit e] }
    | .ok r =>
      { s with
        batch := []
        submitted := s.submitted ++ [s.batch]
        results := s.results ++ r.created
        errs := s.errs ++ r.errors.map (fun er => BatchErr.perRecord er.index er.message) }

/-- One iteration of the select loop of BulkCreateFromChan: a fired
timer flushes, a closed input flushes the final partial batch and ends
the loop, and a received record is appended, flushing when the batch
reaches the maximum size. -/
def step (call : List Lead → Except String BulkCreateResult)
    (s : BatcherState) (e : BatchEvent) : BatcherState :=
  if s.closed then s
  else
    match e with
    | .timerFire => flush call s
    | .closeInput => { flush call s with closed := true }
    | .recv l =>
      if maxBatchSize ≤ (s.batch ++ [l]).length then
        flush call { s with batch := s.batch ++ [l] }
      else
        { s with batch := s.batch ++ [l] }

/-- The batcher starts with an empty batch and nothing emitted. -/
def initState : BatcherState :=
  { batch := [], submitted := [], results := [], errs := [], closed := false }

/-- The batcher goroutine processing a finite sequence of events. -/
def runBatcher (call : List Lead → Except String BulkCreateResult)
    (events : List BatchEvent) : BatcherState :=
  events.foldl (step call) initState

/-- Both branches of a flush leave the batch cleared. -/
theorem flush_batch_eq_nil (call : List Lead → Except String BulkCreateResult)
    (s : BatcherState) : (flush call s).batch = [] := by
  unfold flush
  split
  · next h => exact List.eq_nil_of_length_eq_zero h
  · split <;> rfl

/-- One step keeps the pending batch strictly below the maximum size. -/
theorem step_batch_lt (call : List Lead → Except String BulkCreateResult)
    (s : BatcherState) (e : BatchEvent) (h : s.batch.length < maxBatchSize) :
    (step call s e).batch.length < maxBatchSize := by
  unfold step
  split
  · exact h
  · cases e with
    | timerFire => rw [flush_batch_eq_nil]; simp [maxBatchSize]
    | closeInput =>
      show (flush call s).batch.length < maxBatchSize
      rw [flush_batch_eq_nil]
      simp [maxBatchSize]
    | recv l =>
      dsimp only
      split
      · rw [flush_batch_eq_nil]; simp [maxBatchSize]
      · next hlt =>
        simp only [List.length_append, List.length_cons, List.length_nil] at hlt ⊢
        omega

/-- Every reachable state of the batcher keeps the pending batch
strictly below the maximum size. -/
theorem runBatcher_batch_lt (call : List Lead → Except String BulkCreateResult)
    (events : List BatchEvent) :
    (runBatcher call events).batch.length < maxBatchSize := by
  suffices h : ∀ (es : List BatchEvent) (s : BatcherState),
      s.batch.length < maxBatchSize →
      (es.foldl (step call) s).batch.length < maxBatchSize by
    exact h events initState (by simp [initState, maxBatchSize])
  intro es
  induction es with
  | nil => intro s hs; exact hs
  | cons e es ih =>
    intro s hs
    exact ih _ (step_batch_lt call s e hs)

/-- Claim C7: when the flush of a nonempty batch fails at the whole
call level, exactly one error, the submission error itself, is
appended to the errors outlet, the results outlet receives nothing,
and the batch is cleared after its single submission, so its records
are discarded without being retried individually. -/
theorem flush_submit_failure (call : List Lead → Except String BulkCreateResult)
    (s : BatcherState) (e : String)
    (hne : s.batch ≠ []) (hc : call s.batch = .error e) :
    flush call s =
      { s with
        batch := []
        submitted := s.submitted ++ [s.batch]
        errs := s.errs ++ [BatchErr.submit e] } := by
  unfold flush
  rw [if_neg (fun h => hne (List.eq_nil_of_length_eq_zero h)), hc]

/-- Concrete failing submission for the C7 witness. -/
def callFail : List Lead → Except String BulkCreateResult := fun _ => .error "boom"

/-- A batcher state holding one pending record. -/
def stateOnePending : BatcherState :=
  { batch := [leadA], submitted := [], results := [], errs := [], closed := false }

/-- Witness for C7 on a one-record batch whose submission fails. -/
theorem flush_submit_failure_witness :
    flush callFail stateOnePending =
      { batch := []
        submitted := [[leadA]]
        results := []
        errs := [BatchErr.submit "boom"]
        closed := false } :=
  flush_submit_failure callFail stateOnePending "boom" (by decide) rfl

/-- Claim C2 (amended): after a successful BulkCreate call within
BulkCreateFromChan, flush forwards every per-record created entry to
the results outlet and every per-record error, composed from index and
message, to the errors outlet, exactly as reported and for every
result value whatsoever: no comparison of the created count plus the
error count against the submitted batch size is performed, so a
mismatch is not detected and not surfaced as a protocol error. -/
theorem flush_success_no_count_check (call : List Lead → Except String BulkCreateResult)
    (s : BatcherState) (r : BulkCreateResult)
    (hne : s.batch ≠ []) (hc : call s.batch = .ok r) :
    flush call s =
      { s with
        batch := []
        submitted := s.submitted ++ [s.batch]
        results := s.results ++ r.created
        errs := s.errs ++ r.errors.map (fun er => BatchErr.perRecord er.index er.message) } := by
  unfold flush
  rw [if_neg (fun h => hne (List.eq_nil_of_length_eq_zero h)), hc]

/-- A server whose bulk-create response reports no per-record entry at
all, whatever the batch was: created and errors are both empty even
though the submitted batch is not. -/
def callEmptyOk : List Lead → Except String BulkCreateResult :=
  fun _ => .ok { total := 1, success := 0, failed := 0, created := [], errors := [] }

/-- Counterexample to claim C2 as stated: a one-record batch is
submitted, the response carries zero created entries and zero
per-record errors, so success count plus failure count is 0 and not
the batch size 1, yet flush emits nothing on the errors outlet and
nothing on the results outlet: no mismatch check exists and no
protocol error is surfaced. -/
theorem flush_count_mismatch_cex :
    (flush callEmptyOk stateOnePending).errs = [] ∧
    (flush callEmptyOk stateOnePending).results = [] ∧
    (flush callEmptyOk stateOnePending).submitted = [[leadA]] ∧
    ([leadA] : List Lead).length = 1 := by
  decide

/-- A server reporting one created entry and one per-record error. -/
def callTwoOk : List Lead → Except String BulkCreateResult :=
  fun _ => .ok
    { total := 2
      success := 1
      failed := 1
      created := [{ index := 0, id := "id0" }]
      errors := [{ index := 1, message := "bad" }] }

/-- A batcher state holding two pending records. -/
def stateTwoPending : BatcherState :=
  { batch := [leadA, leadB], submitted := [], results := [], errs := [], closed := false }

/-- Witness for C2 on a two-record batch with one created entry and one
per-record error. -/
theorem flush_success_no_count_check_witness :
    flush callTwoOk stateTwoPending =
      { batch := []
        submitted := [[leadA, leadB]]
        results := [{ index := 0, id := "id0" }]
        errs := [BatchErr.perRecord 1 "bad"]
        closed := false } :=
  flush_success_no_count_check callTwoOk stateTwoPending
    { total := 2
      success := 1
      failed := 1
      created := [{ index := 0, id := "id0" }]
      errors := [{ index := 1, message := "bad" }] }
    (by decide) rfl

/-- Claim C6 (amended): in every reachable state of the batcher loop
the pending batch stays strictly below the maximum batch size of 100
(so it is at most 100 at all times, the instant of the hundredth append
included); the batch is sealed and flushed exactly when an append
makes it reach 100, when the inactivity timer fires on a nonempty
batch, or when the input channel closes with records pending (the
final partial batch); and every flush leaves the batch cleared whether
the submission succeeded or failed, an empty flush being a no-op. -/
theorem batcher_lifecycle (call : List Lead → Except String BulkCreateResult)
    (events : List BatchEvent) (s : BatcherState) (l : Lead)
    (hs : s = runBatcher call events) (hopen : s.closed = false) :
    s.batch.length < maxBatchSize ∧
    (∀ t : BatcherState, (flush call t).batch = []) ∧
    (s.batch.length + 1 < maxBatchSize →
      step call s (.recv l) = { s with batch := s.batch ++ [l] }) ∧
    (s.batch.length + 1 = maxBatchSize →
      step call s (.recv l) = flush call { s with batch := s.batch ++ [l] }) ∧
    step call s .timerFire = flush call s ∧
    step call s .closeInput = { flush call s with closed := true } ∧
    (s.batch = [] → flush call s = s) ∧
    (s.batch ≠ [] → (flush call s).submitted = s.submitted ++ [s.batch]) := by
  refine ⟨hs ▸ runBatcher_batch_lt call events, flush_batch_eq_nil call, ?_, ?_, ?_, ?_, ?_, ?_⟩
  · intro hlt
    unfold step
    rw [if_neg (by simp [hopen])]
    dsimp only
    rw [if_neg (by simp only [List.length_append, List.length_cons, List.length_nil]; omega)]
  · intro heq
    unfold step
    rw [if_neg (by simp [hopen])]
    dsimp only
    rw [if_pos (by simp only [List.length_append, List.length_cons, List.length_nil]; omega)]
  · unfold step
    rw [if_neg (by simp [hopen])]
  · unfold step
    rw [if_neg (by simp [hopen])]
  · intro hnil
    unfold flush
    rw [if_pos (by simp [hnil])]
  · intro hne
    unfold flush
    rw [if_neg (fun h => hne (List.eq_nil_of_length_eq_zero h))]
    cases call s.batch <;> rfl

/-- Counterexample to claim C6 as stated: after receiving a single
record, closing the input channel flushes and submits that pending
batch of size 1, although the batch never reached 100 records and no
inactivity timer event occurred in the trace, so the batch is not
sealed and flushed exactly at those two occasions. -/
theorem batcher_close_flush_cex :
    (runBatcher callEmptyOk [BatchEvent.recv leadA, BatchEvent.closeInput]).submitted
        = [[leadA]] ∧
    (runBatcher callEmptyOk [BatchEvent.recv leadA]).submitted = [] ∧
    (runBatcher callEmptyOk [BatchEvent.recv leadA]).batch.length = 1 ∧
    BatchEvent.closeInput ≠ BatchEvent.timerFire := by
  decide

/-- Witness for C6 after one received record. -/
theorem batcher_lifecycle_witness :
    (runBatcher callEmptyOk [BatchEvent.recv leadA]).batch.length < maxBatchSize :=
  (batcher_lifecycle callEmptyOk [BatchEvent.recv leadA]
    (runBatcher callEmptyOk [BatchEvent.recv leadA]) leadB rfl (by decide)).1

/-- The target argument of APIError.Is: one of the five package
sentinel errors (Go compares the target pointer against the sentinel
variables), or any other error value. -/
inductive SentinelTarget where
  | notFound
  | unauthorized
  | forbidden
  | rateLimited
  | internal
  | otherTarget
deriving DecidableEq

/-- Mirrors APIError.Is: the switch on the carried status code decides
which single sentinel the error matches; every other status matches
nothing. -/
def apiErrorIs (e : APIError) (target : SentinelTarget) : Bool :=
  if e.statusCode = 401 then target == SentinelTarget.unauthorized
  else if e.statusCode = 403 then target == SentinelTarget.forbidden
  else if e.statusCode = 404 then target == SentinelTarget.notFound
  else if e.statusCode = 429 then target == SentinelTarget.rateLimited
  else if e.statusCode = 500 then target == SentinelTarget.internal
  else false

/-- Claim C9: identity comparison of an APIError against the named
error categories is decided solely by its carried status code: it
matches not-found exactly for status 404, unauthorized exactly for
401, forbidden exactly for 403, rate-limited exactly for 429 and
internal exactly for 500, independently of its message text, machine
code text and retry-after value. -/
theorem apiError_is_by_status (e : APIError) :
    (apiErrorIs e SentinelTarget.notFound = true ↔ e.statusCode = 404) ∧
    (apiErrorIs e SentinelTarget.unauthorized = true ↔ e.statusCode = 401) ∧
    (apiErrorIs e SentinelTarget.forbidden = true ↔ e.statusCode = 403) ∧
    (apiErrorIs e SentinelTarget.rateLimited = true ↔ e.statusCode = 429) ∧
    (apiErrorIs e SentinelTarget.internal = true ↔ e.statusCode = 500) ∧
    (∀ (t : SentinelTarget) (c m : String) (ra : Int),
      apiErrorIs { statusCode := e.statusCode, code := c, message := m, retryAfter := ra } t
        = apiErrorIs e t) := by
  refine ⟨?_, ?_, ?_, ?_, ?_, fun t c m ra => rfl⟩ <;>
    · unfold apiErrorIs
      split_ifs <;> simp_all

end LeadsDB
